import Mathlib

/-!
Shallow embedding of the flow execution engine of `auto_k8s_pilot`
(`src/auto_k8s_pilot/flow_runner.py`, class `FlowRunner`), together with
theorems about its behaviour.

Modelling conventions:
* Python dicts used as string-keyed maps become functions `String → Option String`.
* The crew object is a structure with one capability per `@task` method; a
  capability takes the merged context dict and either returns a textual result
  (`Except.ok`) or raises (`Except.error`), covering both `task_method()` and
  `task.run(...)` failures.
* The filesystem flow catalog (`config_dir/layers/flow-<name>.yaml`) is
  abstracted as a partial map `String → Option Flow`; `None` models a missing
  file, which `load_flow` turns into `FileNotFoundError` (`FlowError.notFound`).
* `time.time()` is modelled by an oracle `clock : Nat → Int` (readings in
  milliseconds) consumed in program order: reading 0 is `total_start`; each
  invoked step reads `clock` at its start, once more inside the success-path
  log call, and once for `duration_ms`; the final reading gives
  `total_duration_ms`.  `int((t2 - t1) * 1000)` becomes subtraction of the
  millisecond readings.
-/

namespace AutoK8sPilot

/-- A string-keyed dictionary of strings, as the Python dicts `inputs` and
`context`. -/
abbrev Ctx := String → Option String

/-- An invocable task capability: given the merged context dict it produces a
textual result or raises an error with a textual detail. -/
abbrev Capability := Ctx → Except String String

/-- The empty dict `{}`. -/
def ctxEmpty : Ctx := fun _ => none

/-- `d[k] = v` on a dict. -/
def dictInsert (d : Ctx) (k v : String) : Ctx :=
  fun x => if x = k then some v else d x

/-- The Python merge `{**base, **over}`: keys of `over` win. -/
def dictMerge (base over : Ctx) : Ctx :=
  fun k =>
    match over k with
    | some v => some v
    | none => base k

/-- `startsWithChars pat l` holds when `pat` is an initial segment of `l`;
used to model Python substring containment. -/
def startsWithChars : List Char → List Char → Bool
  | [], _ => true
  | _ :: _, [] => false
  | a :: as, b :: bs => a = b && startsWithChars as bs

/-- `charsContain pat l`: some suffix of `l` starts with `pat`. -/
def charsContain (pat : List Char) : List Char → Bool
  | [] => pat.isEmpty
  | c :: rest => startsWithChars pat (c :: rest) || charsContain pat rest

/-- The Python containment test `pat in s` on strings. -/
def strContains (s pat : String) : Bool :=
  charsContain pat.data s.data

/-- The Python slice `s[:n]` (by characters). -/
def strTake (s : String) (n : Nat) : String :=
  ⟨s.data.take n⟩

/-- The crew object: one capability per `@task` method referenced by
`FlowRunner._build_tasks_map`. -/
structure Crew where
  k8s_pods_overview : Capability
  explain_pods : Capability
  cluster_summary : Capability
  k8s_top_nodes : Capability
  k8s_top_pods_ns_default : Capability
  k8s_events_recent : Capability
  argocd_list_apps : Capability
  argocd_app_status_chat_api : Capability
  argocd_sync_chat_api : Capability
  loki_recent_errors_chat_api : Capability
  loki_http_activity_chat_api : Capability
  dns_check_records : Capability
  dns_get_record_api : Capability
  dns_upsert_record_api : Capability
  llm_gateway_health : Capability
  mcp_k8s_env_check : Capability
  incident_create_issue_if_needed : Capability

/-- `FlowRunner._build_tasks_map`: the fixed dict from task id to crew
capability.  `none` models a key absent from `tasks_map`. -/
def tasks_map (crew : Crew) : String → Option Capability := fun task_id =>
  if task_id = "k8s_pods_overview" then some crew.k8s_pods_overview
  else if task_id = "explain_pods" then some crew.explain_pods
  else if task_id = "cluster_summary" then some crew.cluster_summary
  else if task_id = "k8s_top_nodes" then some crew.k8s_top_nodes
  else if task_id = "k8s_top_pods_ns_default" then some crew.k8s_top_pods_ns_default
  else if task_id = "k8s_events_recent" then some crew.k8s_events_recent
  else if task_id = "argocd_list_apps" then some crew.argocd_list_apps
  else if task_id = "argocd_app_status_chat_api" then some crew.argocd_app_status_chat_api
  else if task_id = "argocd_sync_chat_api" then some crew.argocd_sync_chat_api
  else if task_id = "loki_recent_errors_chat_api" then some crew.loki_recent_errors_chat_api
  else if task_id = "loki_http_activity_chat_api" then some crew.loki_http_activity_chat_api
  else if task_id = "dns_check_records" then some crew.dns_check_records
  else if task_id = "dns_get_record_api" then some crew.dns_get_record_api
  else if task_id = "dns_upsert_record_api" then some crew.dns_upsert_record_api
  else if task_id = "llm_gateway_health" then some crew.llm_gateway_health
  else if task_id = "mcp_k8s_env_check" then some crew.mcp_k8s_env_check
  else if task_id = "incident_create_issue_if_needed" then some crew.incident_create_issue_if_needed
  else none

/-- One step descriptor of a flow YAML: `run` is the value of the `run` key
(`none` when the key is absent). -/
structure Step where
  run : Option String
deriving DecidableEq

/-- The effective task identifier of a step: the Python lookup
`task_id = step.get("run")` followed by the falsy test `if not task_id`
(which also skips the empty string). -/
def taskIdOf (step : Step) : Option String :=
  match step.run with
  | none => none
  | some t => if t = "" then none else some t

/-- A parsed flow YAML: `steps` is the value of the `steps` key
(`none` when the key is absent; `flow.get("steps", [])` defaults it to `[]`). -/
structure Flow where
  steps : Option (List Step)
deriving DecidableEq

/-- One entry of the `tasks` list of `behavior.yaml`. -/
structure TaskBinding where
  id : String
  agent : String
deriving DecidableEq

/-- The parsed `behavior.yaml`. -/
structure Behavior where
  agents : List String
  tasks : List TaskBinding

/-- The dict comprehension `{t["id"]: t["agent"] for t in behavior.get("tasks", [])}`:
on duplicate ids the last entry wins. -/
def task_agent_map (tasks : List TaskBinding) (task_id : String) : Option String :=
  (tasks.reverse.find? (fun t => t.id = task_id)).map (fun t => t.agent)

/-- One element of the `steps` list of the run result. -/
structure StepResult where
  agent : String
  task : String
  output : String
  duration_ms : Int
deriving DecidableEq

/-- The metadata dict: `cluster_summary` and `incident_created` are present
only when `_extract_metadata` wrote them; `total_duration_ms` is added by
`run_flow`. -/
structure Metadata where
  cluster_summary : Option String
  incident_created : Option Bool
  total_duration_ms : Option Int
deriving DecidableEq

/-- The dict returned by `run_flow`. -/
structure RunResult where
  final_answer : String
  steps : List StepResult
  metadata : Metadata
deriving DecidableEq

/-- The exception `load_flow` raises: `FileNotFoundError(f"Flow not found: {flow_name}")`. -/
inductive FlowError where
  | notFound (flow_name : String)
deriving DecidableEq

/-- The engine state: the crew, the flow catalog (abstracting the
`config_dir/layers/flow-*.yaml` files) and the parsed `behavior.yaml`. -/
structure FlowRunner where
  crew : Crew
  flows : String → Option Flow
  behavior : Behavior

/-- A single quote character, for the task-not-found sentinel text. -/
def squote : String := String.singleton (Char.ofNat 39)

/-- The sentinel text ERROR: task <q>task_id<q> not found (with <q> the
single-quote character), emitted for a task id absent from the registry. -/
def taskNotFoundMsg (task_id : String) : String :=
  "ERROR: task " ++ squote ++ task_id ++ squote ++ " not found"

/-- `FlowRunner.load_flow`: resolve a flow name in the catalog or raise
`FileNotFoundError`. -/
def FlowRunner.load_flow (fr : FlowRunner) (flow_name : String) : Except FlowError Flow :=
  match fr.flows flow_name with
  | none => .error (.notFound flow_name)
  | some flow_config => .ok flow_config

/-- The step loop of `FlowRunner.run_flow` (lines 103-162): walks the steps,
returning the result list, the final accumulated context and the next unread
clock index.  `n` is the index of the next `time.time()` reading. -/
def FlowRunner.run_flow_loop (fr : FlowRunner) (clock : Nat → Int) (inputs : Ctx) :
    List Step → Ctx → Nat → List StepResult × Ctx × Nat
  | [], context, n => ([], context, n)
  | step :: rest, context, n =>
    match taskIdOf step with
    | none => fr.run_flow_loop clock inputs rest context n
    | some task_id =>
      match tasks_map fr.crew task_id with
      | none =>
        let t := fr.run_flow_loop clock inputs rest context n
        (⟨"unknown", task_id, taskNotFoundMsg task_id, 0⟩ :: t.1, t.2)
      | some task_method =>
        let agent_id := (task_agent_map fr.behavior.tasks task_id).getD "unknown"
        let start := clock n
        match task_method (dictMerge inputs context) with
        | .ok result =>
          let output := result
          let duration_ms := clock (n + 2) - start
          let t := fr.run_flow_loop clock inputs rest (dictInsert context task_id output) (n + 3)
          (⟨agent_id, task_id, output, duration_ms⟩ :: t.1, t.2)
        | .error e =>
          let output := "ERROR: " ++ e
          let duration_ms := clock (n + 1) - start
          let t := fr.run_flow_loop clock inputs rest (dictInsert context task_id output) (n + 2)
          (⟨agent_id, task_id, output, duration_ms⟩ :: t.1, t.2)

/-- The backward scan of `FlowRunner._extract_final_answer`: the first result
(from the end) whose task is the incident task or the summary task. -/
def findAnswerRev : List StepResult → Option String
  | [] => none
  | r :: rest =>
    if r.task = "incident_create_issue_if_needed" then some r.output
    else if r.task = "cluster_summary" then some r.output
    else findAnswerRev rest

/-- `FlowRunner._extract_final_answer`. -/
def extract_final_answer (results : List StepResult) : String :=
  match findAnswerRev results.reverse with
  | some out => out
  | none =>
    match results.getLast? with
    | some r => r.output
    | none => ""

/-- One iteration of the `_extract_metadata` loop body. -/
def metadataStep (md : Metadata) (r : StepResult) : Metadata :=
  let md :=
    if r.task = "cluster_summary" then
      { md with cluster_summary := some (if r.output = "" then "" else strTake r.output 500) }
    else md
  if r.task = "incident_create_issue_if_needed" then
    { md with incident_created := some (strContains r.output "Created issue") }
  else md

/-- `FlowRunner._extract_metadata`. -/
def extract_metadata (results : List StepResult) : Metadata :=
  results.foldl metadataStep ⟨none, none, none⟩

/-- `FlowRunner.run_flow`. -/
def FlowRunner.run_flow (fr : FlowRunner) (clock : Nat → Int) (flow_name : String)
    (inputs : Ctx) : Except FlowError RunResult :=
  match fr.load_flow flow_name with
  | .error e => .error e
  | .ok flow =>
    let steps_config := flow.steps.getD []
    let total_start := clock 0
    let t := fr.run_flow_loop clock inputs steps_config ctxEmpty 1
    let results := t.1
    let total_duration_ms := clock t.2.2 - total_start
    let final_answer := extract_final_answer results
    let md := extract_metadata results
    let metadata := { md with total_duration_ms := some total_duration_ms }
    .ok ⟨final_answer, results, metadata⟩

/-! ### Concrete instances used to exercise the definitions -/

/-- A capability that always succeeds with `"ok"`. -/
def okCap : Capability := fun _ => .ok "ok"

/-- A crew whose every capability succeeds with `"ok"`. -/
def okCrew : Crew :=
  ⟨okCap, okCap, okCap, okCap, okCap, okCap, okCap, okCap, okCap,
   okCap, okCap, okCap, okCap, okCap, okCap, okCap, okCap⟩

/-- A wall clock whose n-th reading is n milliseconds. -/
def natClock : Nat → Int := fun n => n

theorem natClock_monotone : Monotone natClock := fun _ _ h => Int.ofNat_le.mpr h

/-- A behavior file binding the summary task to agent `"sre"`. -/
def sreBehavior : Behavior := ⟨["sre"], [⟨"cluster_summary", "sre"⟩]⟩

/-- A runner whose summary capability raises `"boom"`, with a single flow
`"a"` consisting of a summary step, a task-less step and an unregistered
step.  The flow catalog contains nothing else. -/
def boomRunner : FlowRunner :=
  ⟨{ okCrew with cluster_summary := fun _ => .error "boom" },
   fun name => if name = "a" then some ⟨some [⟨some "cluster_summary"⟩, ⟨none⟩, ⟨some "ghost_task"⟩]⟩ else none,
   sreBehavior⟩

/-- A runner for the context-accumulation counterexamples: the summary
capability answers `"first"` on its first run and `"second"` once its own
previous output is in the context, and `explain_pods` echoes the context
entry of the summary task. -/
def echoRunner : FlowRunner :=
  ⟨{ okCrew with
      cluster_summary := fun c =>
        .ok (match c "cluster_summary" with
             | some _ => "second"
             | none => "first"),
      explain_pods := fun c => .ok ((c "cluster_summary").getD "none") },
   fun name =>
     if name = "dup" then
       some ⟨some [⟨some "cluster_summary"⟩, ⟨some "cluster_summary"⟩, ⟨some "explain_pods"⟩]⟩
     else none,
   ⟨[], []⟩⟩

/-- A runner for the registry-absent counterexample: `explain_pods` echoes
the context entry of the unregistered task `"ghost_task"`. -/
def ghostRunner : FlowRunner :=
  ⟨{ okCrew with explain_pods := fun c => .ok ((c "ghost_task").getD "MISSING") },
   fun name =>
     if name = "f" then some ⟨some [⟨some "ghost_task"⟩, ⟨some "explain_pods"⟩]⟩ else none,
   ⟨[], []⟩⟩

/-- A runner with an empty-step flow `"empty"` and a steps-key-less flow
`"bare"`. -/
def emptyFlowRunner : FlowRunner :=
  ⟨okCrew,
   fun name =>
     if name = "empty" then some ⟨some []⟩
     else if name = "bare" then some ⟨none⟩
     else none,
   sreBehavior⟩

/-! ### Helper lemmas -/

/-- The textual outcome of one task invocation, as stored by `run_flow`:
the result on success, the `"ERROR: "` sentinel on failure. -/
def outputOf : Except String String → String
  | .ok s => s
  | .error e => "ERROR: " ++ e

theorem dictMerge_of_over {over : Ctx} (base : Ctx) (k : String) (v : String)
    (h : over k = some v) : dictMerge base over k = some v := by
  simp [dictMerge, h]

theorem dictMerge_of_none {over : Ctx} (base : Ctx) (k : String)
    (h : over k = none) : dictMerge base over k = base k := by
  simp [dictMerge, h]

theorem dictInsert_self (d : Ctx) (k v : String) : dictInsert d k v k = some v := by
  simp [dictInsert]

theorem dictInsert_other (d : Ctx) (k v : String) (x : String) (h : x ≠ k) :
    dictInsert d k v x = d x := by
  simp [dictInsert, h]

/-- The task ids of the emitted StepResults are exactly the non-empty task
identifiers of the steps, in declared order. -/
theorem run_flow_loop_map_task (fr : FlowRunner) (clock : Nat → Int) (inputs : Ctx) :
    ∀ (steps : List Step) (context : Ctx) (n : Nat),
      ((fr.run_flow_loop clock inputs steps context n).1).map (fun r => r.task)
        = steps.filterMap taskIdOf := by
  intro steps
  induction steps with
  | nil => intro context n; simp [FlowRunner.run_flow_loop]
  | cons step rest ih =>
    intro context n
    cases h1 : taskIdOf step with
    | none => simp [FlowRunner.run_flow_loop, h1, List.filterMap_cons, ih]
    | some task_id =>
      cases h2 : tasks_map fr.crew task_id with
      | none => simp [FlowRunner.run_flow_loop, h1, h2, List.filterMap_cons, ih]
      | some cap =>
        cases h3 : cap (dictMerge inputs context) with
        | ok s => simp [FlowRunner.run_flow_loop, h1, h2, h3, List.filterMap_cons, ih]
        | error e => simp [FlowRunner.run_flow_loop, h1, h2, h3, List.filterMap_cons, ih]

/-- Whether a result's task is one of the two designated answer tasks of
`_extract_final_answer`. -/
def answerTask (r : StepResult) : Bool :=
  r.task = "incident_create_issue_if_needed" || r.task = "cluster_summary"

theorem findAnswerRev_eq_filter_head (l : List StepResult) :
    findAnswerRev l = ((l.filter answerTask).head?).map (fun r => r.output) := by
  induction l with
  | nil => rfl
  | cons r rest ih =>
    by_cases hi : r.task = "incident_create_issue_if_needed"
    · simp [findAnswerRev, answerTask, hi, List.filter_cons]
    · by_cases hs : r.task = "cluster_summary"
      · simp [findAnswerRev, answerTask, hi, hs, List.filter_cons]
      · simp [findAnswerRev, answerTask, hi, hs, List.filter_cons, ih]

theorem extract_final_answer_eq (results : List StepResult) :
    extract_final_answer results =
      (((results.filter answerTask).getLast?).map (fun r => r.output)).getD
        (((results.getLast?).map (fun r => r.output)).getD "") := by
  unfold extract_final_answer
  rw [findAnswerRev_eq_filter_head, List.filter_reverse, List.head?_reverse]
  cases (results.filter answerTask).getLast? with
  | some r => simp
  | none => cases results.getLast? <;> simp

theorem metadataStep_cluster (md : Metadata) (r : StepResult) :
    (metadataStep md r).cluster_summary =
      if r.task = "cluster_summary" then
        some (if r.output = "" then "" else strTake r.output 500)
      else md.cluster_summary := by
  by_cases h1 : r.task = "cluster_summary" <;>
    by_cases h2 : r.task = "incident_create_issue_if_needed" <;>
      simp [metadataStep, h1, h2]

theorem metadataStep_incident (md : Metadata) (r : StepResult) :
    (metadataStep md r).incident_created =
      if r.task = "incident_create_issue_if_needed" then
        some (strContains r.output "Created issue")
      else md.incident_created := by
  by_cases h1 : r.task = "cluster_summary" <;>
    by_cases h2 : r.task = "incident_create_issue_if_needed" <;>
      simp [metadataStep, h1, h2]

theorem metadataStep_total (md : Metadata) (r : StepResult) :
    (metadataStep md r).total_duration_ms = md.total_duration_ms := by
  by_cases h1 : r.task = "cluster_summary" <;>
    by_cases h2 : r.task = "incident_create_issue_if_needed" <;>
      simp [metadataStep, h1, h2]

theorem foldl_metadataStep_cluster (l : List StepResult) (md : Metadata) :
    (l.foldl metadataStep md).cluster_summary =
      ((l.filter (fun r => r.task = "cluster_summary")).getLast?).elim md.cluster_summary
        (fun r => some (if r.output = "" then "" else strTake r.output 500)) := by
  induction l using List.reverseRecOn with
  | nil => rfl
  | append_singleton l r ih =>
    rw [List.foldl_append, List.filter_append]
    by_cases h : r.task = "cluster_summary"
    · simp [metadataStep_cluster, h, List.getLast?_concat]
    · simp [metadataStep_cluster, h, ih]

theorem foldl_metadataStep_incident (l : List StepResult) (md : Metadata) :
    (l.foldl metadataStep md).incident_created =
      ((l.filter (fun r => r.task = "incident_create_issue_if_needed")).getLast?).elim
        md.incident_created (fun r => some (strContains r.output "Created issue")) := by
  induction l using List.reverseRecOn with
  | nil => rfl
  | append_singleton l r ih =>
    rw [List.foldl_append, List.filter_append]
    by_cases h : r.task = "incident_create_issue_if_needed"
    · simp [metadataStep_incident, h, List.getLast?_concat]
    · simp [metadataStep_incident, h, ih]

theorem foldl_metadataStep_total (l : List StepResult) (md : Metadata) :
    (l.foldl metadataStep md).total_duration_ms = md.total_duration_ms := by
  induction l using List.reverseRecOn with
  | nil => rfl
  | append_singleton l r ih => rw [List.foldl_append, List.foldl_cons, List.foldl_nil,
      metadataStep_total, ih]

theorem strTake_empty (n : Nat) : strTake "" n = "" := by
  show String.mk (List.take n []) = ""
  rw [List.take_nil]

/-! ### Agent-stripping machinery (for the agent-binding independence claim) -/

/-- Forget the agent annotation of a StepResult. -/
def stripAgent (r : StepResult) : StepResult := ⟨"", r.task, r.output, r.duration_ms⟩

/-- Forget the agent annotations of a RunResult. -/
def stripRun (res : RunResult) : RunResult :=
  ⟨res.final_answer, res.steps.map stripAgent, res.metadata⟩

theorem run_flow_loop_behavior_strip (crew : Crew) (flows : String → Option Flow)
    (b₁ b₂ : Behavior) (clock : Nat → Int) (inputs : Ctx) :
    ∀ (steps : List Step) (context : Ctx) (n : Nat),
      ((FlowRunner.mk crew flows b₂).run_flow_loop clock inputs steps context n).1.map stripAgent
        = ((FlowRunner.mk crew flows b₁).run_flow_loop clock inputs steps context n).1.map stripAgent
      ∧ ((FlowRunner.mk crew flows b₂).run_flow_loop clock inputs steps context n).2
        = ((FlowRunner.mk crew flows b₁).run_flow_loop clock inputs steps context n).2 := by
  intro steps
  induction steps with
  | nil => intro context n; exact ⟨rfl, rfl⟩
  | cons step rest ih =>
    intro context n
    cases h1 : taskIdOf step with
    | none => simpa [FlowRunner.run_flow_loop, h1] using ih context n
    | some task_id =>
      cases h2 : tasks_map crew task_id with
      | none =>
        have h := ih context n
        simp [FlowRunner.run_flow_loop, h1, h2, stripAgent, h.1, h.2]
      | some cap =>
        cases h3 : cap (dictMerge inputs context) with
        | ok s =>
          have h := ih (dictInsert context task_id s) (n + 3)
          simp [FlowRunner.run_flow_loop, h1, h2, h3, stripAgent, h.1, h.2]
        | error e =>
          have h := ih (dictInsert context task_id ("ERROR: " ++ e)) (n + 2)
          simp [FlowRunner.run_flow_loop, h1, h2, h3, stripAgent, h.1, h.2]

theorem findAnswerRev_stripAgent (l : List StepResult) :
    findAnswerRev (l.map stripAgent) = findAnswerRev l := by
  induction l with
  | nil => rfl
  | cons r rest ih => simp [findAnswerRev, stripAgent, ih]

theorem extract_final_answer_stripAgent (l : List StepResult) :
    extract_final_answer (l.map stripAgent) = extract_final_answer l := by
  unfold extract_final_answer
  rw [← List.map_reverse, findAnswerRev_stripAgent, List.getLast?_map]
  cases findAnswerRev l.reverse with
  | some out => rfl
  | none => cases l.getLast? <;> rfl

theorem metadataStep_stripAgent (md : Metadata) (r : StepResult) :
    metadataStep md (stripAgent r) = metadataStep md r := rfl

theorem extract_metadata_stripAgent (l : List StepResult) :
    extract_metadata (l.map stripAgent) = extract_metadata l := by
  unfold extract_metadata
  rw [List.foldl_map]
  rfl

/-! ### Claim theorems -/

/-- Claim C1: for a step whose task is present in the registry but whose
invocation raises any error, the engine loop (the step loop of
`FlowRunner.run_flow`) records a StepResult whose output is exactly
"ERROR: " followed by the failure detail, with the measured duration
(non-negative whenever the wall clock is monotone), appends it to the result
sequence exactly as a successful step would be (a cons to the sequence,
followed by the unchanged continuation on the remaining steps), and continues
executing all subsequent steps — a step failure never aborts the run. -/
theorem C1_step_failure_isolated (fr : FlowRunner) (clock : Nat → Int)
    (inputs context : Ctx) (n : Nat) (step : Step) (rest : List Step)
    (task_id : String) (cap : Capability) (e : String)
    (h1 : taskIdOf step = some task_id)
    (h2 : tasks_map fr.crew task_id = some cap)
    (h3 : cap (dictMerge inputs context) = .error e) :
    fr.run_flow_loop clock inputs (step :: rest) context n =
      (⟨(task_agent_map fr.behavior.tasks task_id).getD "unknown", task_id,
         "ERROR: " ++ e, clock (n + 1) - clock n⟩ ::
        (fr.run_flow_loop clock inputs rest
          (dictInsert context task_id ("ERROR: " ++ e)) (n + 2)).1,
       (fr.run_flow_loop clock inputs rest
          (dictInsert context task_id ("ERROR: " ++ e)) (n + 2)).2)
    ∧ (Monotone clock → 0 ≤ clock (n + 1) - clock n) := by
  constructor
  · simp [FlowRunner.run_flow_loop, h1, h2, h3]
  · intro hm
    exact sub_nonneg.mpr (hm (Nat.le_succ n))

/-- Witness for C1 at a concrete runner whose summary capability raises
"boom". -/
theorem C1_witness :
    boomRunner.run_flow_loop natClock ctxEmpty [⟨some "cluster_summary"⟩] ctxEmpty 1 =
      (⟨(task_agent_map boomRunner.behavior.tasks "cluster_summary").getD "unknown",
         "cluster_summary", "ERROR: " ++ "boom", natClock 2 - natClock 1⟩ ::
        (boomRunner.run_flow_loop natClock ctxEmpty []
          (dictInsert ctxEmpty "cluster_summary" ("ERROR: " ++ "boom")) 3).1,
       (boomRunner.run_flow_loop natClock ctxEmpty []
          (dictInsert ctxEmpty "cluster_summary" ("ERROR: " ++ "boom")) 3).2)
    ∧ 0 ≤ natClock 2 - natClock 1 := by
  have h := C1_step_failure_isolated boomRunner natClock ctxEmpty ctxEmpty 1
    ⟨some "cluster_summary"⟩ [] "cluster_summary" boomRunner.crew.cluster_summary "boom"
    rfl rfl rfl
  exact ⟨h.1, h.2 natClock_monotone⟩

/-- Claim C2: `run_flow` fails with the NotFound condition exactly when the
flow name has no matching flow source (and the error value carries no
StepResult — no step is executed); every flow that does resolve yields an
ok RunResult, so no other internal failure is ever re-raised to the caller
(the embedding is total: all capability failures are absorbed into step
outputs). -/
theorem C2_not_found_exactly (fr : FlowRunner) (clock : Nat → Int)
    (flow_name : String) (inputs : Ctx) :
    (fr.run_flow clock flow_name inputs = .error (.notFound flow_name)
      ↔ fr.flows flow_name = none)
    ∧ ((∃ res, fr.run_flow clock flow_name inputs = .ok res)
      ↔ ∃ flow, fr.flows flow_name = some flow) := by
  cases h : fr.flows flow_name with
  | none => simp [FlowRunner.run_flow, FlowRunner.load_flow, h]
  | some flow => simp [FlowRunner.run_flow, FlowRunner.load_flow, h]

/-- Witness for C2: a missing flow name fails NotFound, a present one
returns ok. -/
theorem C2_witness :
    boomRunner.run_flow natClock "missing" ctxEmpty = .error (.notFound "missing")
    ∧ ∃ res, boomRunner.run_flow natClock "a" ctxEmpty = .ok res :=
  ⟨(C2_not_found_exactly boomRunner natClock "missing" ctxEmpty).1.mpr rfl,
   (C2_not_found_exactly boomRunner natClock "a" ctxEmpty).2.mpr ⟨_, rfl⟩⟩

/-- Claim C6: for a step whose non-empty task identifier is absent from the
task registry, the loop emits a StepResult with agent "unknown", output
`taskNotFoundMsg task_id` (the literal text ERROR: task <q>id<q> not found)
and duration 0, and then continues with the subsequent steps unchanged
(same context, no clock reading consumed). -/
theorem C6_task_not_found (fr : FlowRunner) (clock : Nat → Int)
    (inputs context : Ctx) (n : Nat) (step : Step) (rest : List Step)
    (task_id : String)
    (h1 : taskIdOf step = some task_id)
    (h2 : tasks_map fr.crew task_id = none) :
    fr.run_flow_loop clock inputs (step :: rest) context n =
      (⟨"unknown", task_id, taskNotFoundMsg task_id, 0⟩ ::
        (fr.run_flow_loop clock inputs rest context n).1,
       (fr.run_flow_loop clock inputs rest context n).2) := by
  simp [FlowRunner.run_flow_loop, h1, h2]

/-- Witness for C6 at the unregistered task id "ghost_task". -/
theorem C6_witness :
    boomRunner.run_flow_loop natClock ctxEmpty [⟨some "ghost_task"⟩] ctxEmpty 1 =
      (⟨"unknown", "ghost_task", taskNotFoundMsg "ghost_task", 0⟩ ::
        (boomRunner.run_flow_loop natClock ctxEmpty [] ctxEmpty 1).1,
       (boomRunner.run_flow_loop natClock ctxEmpty [] ctxEmpty 1).2) :=
  C6_task_not_found boomRunner natClock ctxEmpty ctxEmpty 1 ⟨some "ghost_task"⟩ []
    "ghost_task" rfl rfl

/-- Counterexample to claim C3 as stated: the sequence holds an incident
step with output "A" followed by a summary step with output "B"; the claim
demands the incident output "A" (incident beats summary whenever an incident
step is present anywhere), but `extract_final_answer` returns "B", because
the single backward scan stops at the first step from the end matching
either designated task. -/
theorem C3_counterexample :
    extract_final_answer
        [⟨"a", "incident_create_issue_if_needed", "A", 0⟩,
         ⟨"a", "cluster_summary", "B", 0⟩] = "B"
    ∧ ("B" : String) ≠ "A" :=
  ⟨rfl, by decide⟩

/-- Claim C3 as amended: `extract_final_answer` returns the output of the
step nearest the end whose task is the incident task or the summary task —
whichever of the two occurs last wins, rather than incident having absolute
priority — else the output of the very last step, else the empty string for
the empty sequence. -/
theorem C3_final_answer_amended (results : List StepResult) :
    extract_final_answer results =
      (((results.filter answerTask).getLast?).map (fun r => r.output)).getD
        (((results.getLast?).map (fun r => r.output)).getD "") :=
  extract_final_answer_eq results

/-- Claim C4: for every flow that resolves, `run_flow` returns ok and the
emitted StepResults correspond one-to-one, in declared order, to the step
descriptors with a non-empty task identifier (whether each one fails, is
absent from the registry, or succeeds); steps with no task identifier yield
none. -/
theorem C4_one_result_per_step (fr : FlowRunner) (clock : Nat → Int)
    (flow_name : String) (inputs : Ctx) (flow : Flow)
    (h : fr.flows flow_name = some flow) :
    ∃ res, fr.run_flow clock flow_name inputs = .ok res
      ∧ res.steps.map (fun r => r.task) = (flow.steps.getD []).filterMap taskIdOf
      ∧ res.steps.length = ((flow.steps.getD []).filterMap taskIdOf).length := by
  have hmap := run_flow_loop_map_task fr clock inputs (flow.steps.getD []) ctxEmpty 1
  simp only [FlowRunner.run_flow, FlowRunner.load_flow, h]
  exact ⟨_, rfl, hmap, by rw [← hmap, List.length_map]⟩

/-- Witness for C4 on a three-step flow: one registered step, one task-less
step, one unregistered step — exactly two StepResults, in order. -/
theorem C4_witness :
    ∃ res, boomRunner.run_flow natClock "a" ctxEmpty = .ok res
      ∧ res.steps.map (fun r => r.task)
          = ((Flow.mk (some [⟨some "cluster_summary"⟩, ⟨none⟩, ⟨some "ghost_task"⟩])).steps.getD
              []).filterMap taskIdOf
      ∧ res.steps.length
          = (((Flow.mk (some [⟨some "cluster_summary"⟩, ⟨none⟩, ⟨some "ghost_task"⟩])).steps.getD
              []).filterMap taskIdOf).length :=
  C4_one_result_per_step boomRunner natClock "a" ctxEmpty _ rfl

/-- Counterexample to claim C5 as stated: in the flow below the first step
names the unregistered task "ghost_task" and yields the not-found
StepResult, and the second step invokes a capability that echoes the context
entry of key "ghost_task" (defaulting to "MISSING").  The claim says the
context must contain ghost_task mapped to the first StepResult output after
that step; the echoed value "MISSING" proves the entry is absent: the code
skips the context merge for registry-absent tasks. -/
theorem C5_counterexample :
    ghostRunner.run_flow natClock "f" ctxEmpty =
      .ok ⟨"MISSING",
        [⟨"unknown", "ghost_task", taskNotFoundMsg "ghost_task", 0⟩,
         ⟨"unknown", "explain_pods", "MISSING", 2⟩],
        ⟨none, none, some 4⟩⟩
    ∧ ("MISSING" : String) ≠ taskNotFoundMsg "ghost_task" :=
  ⟨rfl, by decide⟩

/-- Claim C5 as amended: a step whose task is present in the registry —
whether the invocation succeeds or fails — merges task_id mapped to its
emitted output into the accumulated context seen by all subsequent steps
(error text included); a step whose task is absent from the registry emits
its StepResult but leaves the context unchanged. -/
theorem C5_context_merge_amended (fr : FlowRunner) (clock : Nat → Int)
    (inputs context : Ctx) (n : Nat) (step : Step) (rest : List Step)
    (task_id : String)
    (h1 : taskIdOf step = some task_id) :
    (∀ cap, tasks_map fr.crew task_id = some cap →
      ∃ dur m,
        fr.run_flow_loop clock inputs (step :: rest) context n =
          (⟨(task_agent_map fr.behavior.tasks task_id).getD "unknown", task_id,
             outputOf (cap (dictMerge inputs context)), dur⟩ ::
            (fr.run_flow_loop clock inputs rest
              (dictInsert context task_id (outputOf (cap (dictMerge inputs context)))) m).1,
           (fr.run_flow_loop clock inputs rest
              (dictInsert context task_id (outputOf (cap (dictMerge inputs context)))) m).2)
        ∧ dictInsert context task_id (outputOf (cap (dictMerge inputs context))) task_id
            = some (outputOf (cap (dictMerge inputs context))))
    ∧ (tasks_map fr.crew task_id = none →
      fr.run_flow_loop clock inputs (step :: rest) context n =
        (⟨"unknown", task_id, taskNotFoundMsg task_id, 0⟩ ::
          (fr.run_flow_loop clock inputs rest context n).1,
         (fr.run_flow_loop clock inputs rest context n).2)) := by
  constructor
  · intro cap h2
    cases h3 : cap (dictMerge inputs context) with
    | ok s =>
      refine ⟨clock (n + 2) - clock n, n + 3, ?_, dictInsert_self _ _ _⟩
      simp [FlowRunner.run_flow_loop, h1, h2, h3, outputOf]
    | error e =>
      refine ⟨clock (n + 1) - clock n, n + 2, ?_, dictInsert_self _ _ _⟩
      simp [FlowRunner.run_flow_loop, h1, h2, h3, outputOf]
  · intro h2
    simp [FlowRunner.run_flow_loop, h1, h2]

/-- Witness for C5 at a registered step. -/
theorem C5_witness :
    ∃ dur m,
      ghostRunner.run_flow_loop natClock ctxEmpty [⟨some "explain_pods"⟩] ctxEmpty 1 =
        (⟨(task_agent_map ghostRunner.behavior.tasks "explain_pods").getD "unknown",
           "explain_pods",
           outputOf (ghostRunner.crew.explain_pods (dictMerge ctxEmpty ctxEmpty)), dur⟩ ::
          (ghostRunner.run_flow_loop natClock ctxEmpty []
            (dictInsert ctxEmpty "explain_pods"
              (outputOf (ghostRunner.crew.explain_pods (dictMerge ctxEmpty ctxEmpty)))) m).1,
         (ghostRunner.run_flow_loop natClock ctxEmpty []
            (dictInsert ctxEmpty "explain_pods"
              (outputOf (ghostRunner.crew.explain_pods (dictMerge ctxEmpty ctxEmpty)))) m).2)
      ∧ dictInsert ctxEmpty "explain_pods"
            (outputOf (ghostRunner.crew.explain_pods (dictMerge ctxEmpty ctxEmpty)))
            "explain_pods"
          = some (outputOf (ghostRunner.crew.explain_pods (dictMerge ctxEmpty ctxEmpty))) :=
  (C5_context_merge_amended ghostRunner natClock ctxEmpty ctxEmpty 1 ⟨some "explain_pods"⟩
    [] "explain_pods" rfl).1 ghostRunner.crew.explain_pods rfl

/-- Counterexample to claim C7 as stated: the flow runs the summary task
twice and then a probe whose capability returns exactly the context value at
the summary key.  Step 1 produced the literal output "first", but the probe
at step 3 observes "second" — the context passed to step 3 does not contain
the literal output of every earlier executed step keyed by its task
identifier, because a repeated task identifier overwrites the earlier entry
(last-write-wins). -/
theorem C7_counterexample :
    echoRunner.run_flow natClock "dup" ctxEmpty =
      .ok ⟨"second",
        [⟨"unknown", "cluster_summary", "first", 2⟩,
         ⟨"unknown", "cluster_summary", "second", 2⟩,
         ⟨"unknown", "explain_pods", "second", 2⟩],
        ⟨some "second", none, some 10⟩⟩
    ∧ ("second" : String) ≠ "first" :=
  ⟨rfl, by decide⟩

/-- Claim C7 as amended: the capability invoked at a step receives exactly
the merge of the caller inputs with the accumulated context
(`dictMerge inputs context`, the Python spread of inputs first and context
second): context entries override inputs on key collision, keys absent from
the context fall back to the inputs; the step then merges its task id
mapped to its own output into the context (overwriting any earlier entry at
that key and leaving every other key unchanged), so the context maps each
task id to the output of the most recent earlier invoked step bearing it. -/
theorem C7_context_passing_amended (fr : FlowRunner) (clock : Nat → Int)
    (inputs context : Ctx) (n : Nat) (step : Step) (rest : List Step)
    (task_id : String) (cap : Capability)
    (h1 : taskIdOf step = some task_id)
    (h2 : tasks_map fr.crew task_id = some cap) :
    (∃ dur m,
      fr.run_flow_loop clock inputs (step :: rest) context n =
        (⟨(task_agent_map fr.behavior.tasks task_id).getD "unknown", task_id,
           outputOf (cap (dictMerge inputs context)), dur⟩ ::
          (fr.run_flow_loop clock inputs rest
            (dictInsert context task_id (outputOf (cap (dictMerge inputs context)))) m).1,
         (fr.run_flow_loop clock inputs rest
            (dictInsert context task_id (outputOf (cap (dictMerge inputs context)))) m).2))
    ∧ (∀ k v, context k = some v → dictMerge inputs context k = some v)
    ∧ (∀ k, context k = none → dictMerge inputs context k = inputs k)
    ∧ (∀ out, dictInsert context task_id out task_id = some out)
    ∧ (∀ k out, k ≠ task_id → dictInsert context task_id out k = context k) := by
  refine ⟨?_, fun k v h => dictMerge_of_over inputs k v h,
    fun k h => dictMerge_of_none inputs k h,
    fun out => dictInsert_self context task_id out,
    fun k out h => dictInsert_other context task_id out k h⟩
  cases h3 : cap (dictMerge inputs context) with
  | ok s =>
    refine ⟨clock (n + 2) - clock n, n + 3, ?_⟩
    simp [FlowRunner.run_flow_loop, h1, h2, h3, outputOf]
  | error e =>
    refine ⟨clock (n + 1) - clock n, n + 2, ?_⟩
    simp [FlowRunner.run_flow_loop, h1, h2, h3, outputOf]

/-- Witness for C7 at a concrete invoked step. -/
theorem C7_witness :
    (∃ dur m,
      echoRunner.run_flow_loop natClock ctxEmpty [⟨some "cluster_summary"⟩] ctxEmpty 1 =
        (⟨(task_agent_map echoRunner.behavior.tasks "cluster_summary").getD "unknown",
           "cluster_summary",
           outputOf (echoRunner.crew.cluster_summary (dictMerge ctxEmpty ctxEmpty)), dur⟩ ::
          (echoRunner.run_flow_loop natClock ctxEmpty []
            (dictInsert ctxEmpty "cluster_summary"
              (outputOf (echoRunner.crew.cluster_summary (dictMerge ctxEmpty ctxEmpty)))) m).1,
         (echoRunner.run_flow_loop natClock ctxEmpty []
            (dictInsert ctxEmpty "cluster_summary"
              (outputOf (echoRunner.crew.cluster_summary (dictMerge ctxEmpty ctxEmpty)))) m).2))
    ∧ (∀ k v, ctxEmpty k = some v → dictMerge ctxEmpty ctxEmpty k = some v)
    ∧ (∀ k, ctxEmpty k = none → dictMerge ctxEmpty ctxEmpty k = ctxEmpty k)
    ∧ (∀ out, dictInsert ctxEmpty "cluster_summary" out "cluster_summary" = some out)
    ∧ (∀ k out, k ≠ "cluster_summary" → dictInsert ctxEmpty "cluster_summary" out k = ctxEmpty k) :=
  C7_context_passing_amended echoRunner natClock ctxEmpty ctxEmpty 1 ⟨some "cluster_summary"⟩
    [] "cluster_summary" echoRunner.crew.cluster_summary rfl rfl

/-- Claim C8: `extract_metadata` records, for the summary task, the output
of its last occurrence truncated to the first 500 characters (`strTake`, the
Python slice to 500 characters); for the incident task, whether the output
of its last occurrence contains the fixed marker "Created issue"
(`strContains`, the Python containment test); later occurrences overwrite
earlier ones (last-write-wins), and nothing else is written (the
total-duration slot stays empty here — `run_flow` fills it afterwards). -/
theorem C8_metadata_extraction (results : List StepResult) :
    (extract_metadata results).cluster_summary
        = ((results.filter (fun r => r.task = "cluster_summary")).getLast?).map
            (fun r => strTake r.output 500)
    ∧ (extract_metadata results).incident_created
        = ((results.filter (fun r => r.task = "incident_create_issue_if_needed")).getLast?).map
            (fun r => strContains r.output "Created issue")
    ∧ (extract_metadata results).total_duration_ms = none := by
  refine ⟨?_, ?_, ?_⟩
  · unfold extract_metadata
    rw [foldl_metadataStep_cluster]
    cases (results.filter (fun r => r.task = "cluster_summary")).getLast? with
    | none => rfl
    | some r =>
      by_cases ho : r.output = ""
      · simp [ho, strTake_empty]
      · simp [ho]
  · unfold extract_metadata
    rw [foldl_metadataStep_incident]
    cases (results.filter (fun r => r.task = "incident_create_issue_if_needed")).getLast? <;> rfl
  · unfold extract_metadata
    rw [foldl_metadataStep_total]

/-- Claim C10: for every flow definition whose step list is empty or whose
steps key is absent, `run_flow` succeeds and returns the empty final answer,
no StepResults, and a metadata dict holding exactly the total-duration
entry. -/
theorem C10_empty_flow (fr : FlowRunner) (clock : Nat → Int) (flow_name : String)
    (inputs : Ctx) (flow : Flow)
    (h1 : fr.flows flow_name = some flow)
    (h2 : flow.steps = none ∨ flow.steps = some []) :
    fr.run_flow clock flow_name inputs =
      .ok ⟨"", [], ⟨none, none, some (clock 1 - clock 0)⟩⟩ := by
  rcases h2 with h2 | h2 <;>
    simp [FlowRunner.run_flow, FlowRunner.load_flow, h1, h2, FlowRunner.run_flow_loop,
      extract_final_answer, findAnswerRev, extract_metadata]

/-- Witness for C10, on a flow with an empty steps list and one with no
steps key. -/
theorem C10_witness :
    emptyFlowRunner.run_flow natClock "empty" ctxEmpty =
      .ok ⟨"", [], ⟨none, none, some (natClock 1 - natClock 0)⟩⟩
    ∧ emptyFlowRunner.run_flow natClock "bare" ctxEmpty =
      .ok ⟨"", [], ⟨none, none, some (natClock 1 - natClock 0)⟩⟩ :=
  ⟨C10_empty_flow emptyFlowRunner natClock "empty" ctxEmpty ⟨some []⟩ rfl (Or.inr rfl),
   C10_empty_flow emptyFlowRunner natClock "bare" ctxEmpty ⟨none⟩ rfl (Or.inl rfl)⟩

/-- Claim C9: the agent-binding map never affects dispatch.  Two runners
sharing crew and flow catalog but with arbitrarily different behavior files
(hence different task-to-agent binding maps) produce, for every flow name
and inputs, run results that are identical after erasing the agent
annotations (`stripRun` erases only the per-step agent field): same error
or same final answer, same per-step task, output and duration, and same
metadata. -/
theorem C9_agent_binding_annotation_only (fr : FlowRunner) (agents2 : List String)
    (tasks2 : List TaskBinding) (clock : Nat → Int) (flow_name : String) (inputs : Ctx) :
    (FlowRunner.run_flow ⟨fr.crew, fr.flows, ⟨agents2, tasks2⟩⟩ clock flow_name inputs).map
        stripRun
      = (fr.run_flow clock flow_name inputs).map stripRun := by
  cases hf : fr.flows flow_name with
  | none => simp [FlowRunner.run_flow, FlowRunner.load_flow, hf]
  | some flow =>
    obtain ⟨hsteps, hrest⟩ := run_flow_loop_behavior_strip fr.crew fr.flows fr.behavior
      ⟨agents2, tasks2⟩ clock inputs (flow.steps.getD []) ctxEmpty 1
    have he : FlowRunner.mk fr.crew fr.flows fr.behavior = fr := rfl
    rw [he] at hsteps hrest
    have hfa : extract_final_answer
          ((FlowRunner.mk fr.crew fr.flows ⟨agents2, tasks2⟩).run_flow_loop clock inputs
            (flow.steps.getD []) ctxEmpty 1).1
        = extract_final_answer
            (fr.run_flow_loop clock inputs (flow.steps.getD []) ctxEmpty 1).1 := by
      rw [← extract_final_answer_stripAgent, hsteps, extract_final_answer_stripAgent]
    have hmd : extract_metadata
          ((FlowRunner.mk fr.crew fr.flows ⟨agents2, tasks2⟩).run_flow_loop clock inputs
            (flow.steps.getD []) ctxEmpty 1).1
        = extract_metadata
            (fr.run_flow_loop clock inputs (flow.steps.getD []) ctxEmpty 1).1 := by
      rw [← extract_metadata_stripAgent, hsteps, extract_metadata_stripAgent]
    have hdur : ((FlowRunner.mk fr.crew fr.flows ⟨agents2, tasks2⟩).run_flow_loop clock inputs
          (flow.steps.getD []) ctxEmpty 1).2
        = (fr.run_flow_loop clock inputs (flow.steps.getD []) ctxEmpty 1).2 := hrest
    simp only [FlowRunner.run_flow, FlowRunner.load_flow, hf, Except.map]
    simp [stripRun, hfa, hmd, hdur, hsteps]

end AutoK8sPilot
